import Mathlib

/-!
Verification of the schema-synthesis layer of the Sahana Eden
Data Collection module (`modules/s3db/dc.py`).

The embedding models the database state touched by the three on-accept
hooks (`dc_template_create_onaccept`, `dc_question_onaccept`,
`dc_question_l10n_onaccept`) and translates each hook as a pure state
transformer.  Python exceptions that can escape a hook are modelled with
`Except PyErr`.  Web2py lazy-translation objects (`T("...")`) are
modelled by the tag `TStr.t`, plain strings by `TStr.plain`.
-/

namespace DC

/-- A web2py string value: either a plain string or a lazy-translated
`T("...")` object. -/
inductive TStr where
  | plain (s : String)
  | t (s : String)
deriving DecidableEq, Repr

/-- `s3_str`: stringification of a web2py value (a lazy translation
renders as its message text in the embedding). -/
def s3_str : TStr → String
  | .plain s => s
  | .t s => s

/-- Python exceptions that can escape the hooks. -/
inductive PyErr where
  | attributeError
  | notImplementedError
  | typeError
deriving DecidableEq, Repr

/-- A row of `dc_template`: `name` and the link `table_id` to the
dynamic table (null until provisioned). -/
structure Template where
  id : Nat
  name : Option String
  table_id : Option Nat
deriving DecidableEq, Repr

/-- A row of `dc_question` (only the columns the hooks select). -/
structure Question where
  id : Nat
  template_id : Nat
  field_id : Option Nat
  name : String
  comments : Option String
  field_type : Nat
  options : List TStr
  require_not_empty : Bool
deriving DecidableEq, Repr

/-- A row of `dc_question_l10n` (only the columns the hooks select). -/
structure QuestionL10n where
  id : Nat
  question_id : Nat
  options_l10n : List TStr
  language : String
deriving DecidableEq, Repr

/-- The `settings` payload passed to `s3_table.insert`: either the
default `""` or `{"insertable": False}`. -/
inductive TableSettings where
  | dflt
  | notInsertable
deriving DecidableEq, Repr

/-- A row of the dynamic-table catalog `s3_table`. -/
structure S3Table where
  id : Nat
  title : Option String
  mobile_data : Bool
  settings : TableSettings
deriving DecidableEq, Repr

/-- A row of the dynamic-field catalog `s3_field` (the union of the
columns written by the two insert sites and the update site). -/
structure S3Field where
  id : Nat
  table_id : Option Nat
  name : Option String
  label : Option String
  field_type : String
  options : Option (List TStr)
  require_not_empty : Bool
  comments : Option String
  component_key : Bool
  component_alias : Option String
  component_tab : Bool
  master : Option String
  component_multiple : Option Bool
deriving DecidableEq, Repr

/-- Deployment settings read by `dc_template_create_onaccept`. -/
structure Settings where
  mobile_data : Bool
  mobile_inserts : Bool
deriving DecidableEq, Repr

/-- A per-language web2py translation dictionary (insertion-ordered,
as Python dicts are). -/
abbrev Dict := List (String × String)

/-- The database and ambient state visible to the hooks.  `langFiles`
models the `languages/<code>.py` files (present key = existing file);
`entropy` models the raw token `str(uuid1())` would produce at the next
call; `sessionError` models `current.session.error`. -/
structure DB where
  dc_templates : List Template
  dc_questions : List Question
  dc_question_l10ns : List QuestionL10n
  s3_tables : List S3Table
  s3_fields : List S3Field
  nextTableId : Nat
  nextFieldId : Nat
  langFiles : List (String × Dict)
  settings : Settings
  entropy : List Char
  sessionError : Option TStr
deriving DecidableEq, Repr

/-- The `form` argument of an on-accept hook: `form.vars.id` (absent
when accessing it raises `AttributeError`) and `form.vars.get("name")`. -/
structure Form where
  id : Option Nat
  name : Option String
deriving DecidableEq, Repr

/-- Result of the logical→physical type dispatch inside
`dc_question_onaccept`. -/
inductive MapResult where
  | mapped (field_type : String) (options : Option (List TStr))
  | grid
  | unknown
deriving DecidableEq, Repr

/-- The `if/elif` chain of `dc_question_onaccept` (dc.py lines
492–519): logical type code plus the question's raw `options` to
physical field type plus derived options. -/
def mapFieldType (field_type : Nat) (qoptions : List TStr) : MapResult :=
  if field_type = 1 then .mapped "string" none
  else if field_type = 2 then .mapped "integer" none
  else if field_type = 4 then .mapped "boolean" none
  else if field_type = 5 then
    .mapped "string" (some [.t "Yes", .t "No", .t "Don't Know"])
  else if field_type = 6 then .mapped "string" (some qoptions)
  else if field_type = 7 then .mapped "date" none
  else if field_type = 8 then .mapped "datetime" none
  else if field_type = 9 then .grid
  else .unknown

/-- `"f%s" % str(uuid1()).replace("-", "_")` (dc.py lines 539–540). -/
def genFieldName (token : List Char) : List Char :=
  'f' :: token.map (fun c => if c = '-' then '_' else c)

/-- The `response_id` linking field inserted by
`dc_template_create_onaccept` (dc.py lines 447–457). -/
def responseField (fid : Nat) (table_id : Nat) : S3Field :=
  { id := fid
    table_id := some table_id
    name := some "response_id"
    label := none
    field_type := "reference dc_response"
    options := none
    require_not_empty := true
    comments := none
    component_key := true
    component_alias := some "answer"
    component_tab := true
    master := some "dc_response"
    component_multiple := some false }

/-- `dc_template_create_onaccept` (dc.py lines 419–462): create a
dynamic table titled from the form's `name`, attach the `response_id`
linking field, and write the table reference onto the template row. -/
def dc_template_create_onaccept (form : Form) (db : DB) : DB :=
  match form.id with
  | none => db
  | some template_id =>
    let table_settings : TableSettings :=
      if db.settings.mobile_inserts then .dflt else .notInsertable
    let table_id := db.nextTableId
    let db1 : DB :=
      { db with
          s3_tables := db.s3_tables ++
            [{ id := table_id
               title := form.name
               mobile_data := db.settings.mobile_data
               settings := table_settings }]
          nextTableId := table_id + 1 }
    let field_id := db1.nextFieldId
    let db2 : DB :=
      { db1 with
          s3_fields := db1.s3_fields ++ [responseField field_id table_id]
          nextFieldId := field_id + 1 }
    { db2 with
        dc_templates := db2.dc_templates.map (fun t =>
          if t.id = template_id then { t with table_id := some table_id } else t) }

/-- The column overwrite `dc_question_onaccept` applies to an existing
dynamic field (dc.py lines 524–530). -/
def updateFieldRow (q : Question) (ft : String) (opts : Option (List TStr))
    (field_id : Nat) (f : S3Field) : S3Field :=
  if f.id = field_id then
    { f with
        label := some q.name
        field_type := ft
        options := opts
        require_not_empty := q.require_not_empty
        comments := q.comments }
  else f

/-- `dc_question_onaccept` (dc.py lines 466–554): re-read the question,
map its logical type, then update the linked dynamic field in place or
create one (naming it from the entropy token) and write the field
reference back onto the question row. -/
def dc_question_onaccept (form : Form) (db : DB) : Except PyErr DB :=
  match form.id with
  | none => .ok db
  | some question_id =>
    match db.dc_questions.find? (fun q => q.id = question_id) with
    | none => .error .attributeError
    | some question =>
      match mapFieldType question.field_type question.options with
      | .grid => .ok db
      | .unknown => .error .notImplementedError
      | .mapped ft opts =>
        match question.field_id with
        | some field_id =>
          .ok { db with
                  s3_fields :=
                    db.s3_fields.map (updateFieldRow question ft opts field_id) }
        | none =>
          match db.dc_templates.find? (fun t => t.id = question.template_id) with
          | none => .error .attributeError
          | some template =>
            let name := genFieldName db.entropy
            let field_id := db.nextFieldId
            let db1 : DB :=
              { db with
                  s3_fields := db.s3_fields ++
                    [{ id := field_id
                       table_id := template.table_id
                       name := some (String.mk name)
                       label := some question.name
                       field_type := ft
                       options := opts
                       require_not_empty := question.require_not_empty
                       comments := question.comments
                       component_key := false
                       component_alias := none
                       component_tab := false
                       master := none
                       component_multiple := none }]
                  nextFieldId := field_id + 1 }
            .ok { db1 with
                    dc_questions := db1.dc_questions.map (fun q =>
                      if q.id = question.id then { q with field_id := some field_id }
                      else q) }

/-- Keyed upsert on an association list: overwrite in place if the key
exists, otherwise append.  This is both Python's `d[k] = v` on an
insertion-ordered dict and the overwrite-or-create file write. -/
def assocUpsert {β : Type} : List (String × β) → String → β → List (String × β)
  | [], k, v => [(k, v)]
  | p :: rest, k, v =>
    if p.1 = k then (k, v) :: rest else p :: assocUpsert rest k v

/-- Keyed lookup on an association list. -/
def assocLookup {β : Type} (l : List (String × β)) (k : String) : Option β :=
  (l.find? (fun p => p.1 = k)).map (fun p => p.2)

/-- The merge loop of `dc_question_l10n_onaccept` (dc.py lines
605–609): for each option pair write the translation unless the
translated string equals the original. -/
def mergeL10n (pairs : List (TStr × TStr)) (translations : Dict) : Dict :=
  pairs.foldl (fun d p =>
    if s3_str p.1 ≠ s3_str p.2 then assocUpsert d (s3_str p.1) (s3_str p.2)
    else d) translations

/-- Read a language file, `{}` if it does not exist
(dc.py lines 599–602). -/
def readLangFile (files : List (String × Dict)) (lang : String) : Dict :=
  (assocLookup files lang).getD []

/-- `write_dict`: write the language file, creating it if absent. -/
def writeLangFile (files : List (String × Dict)) (lang : String)
    (d : Dict) : List (String × Dict) :=
  assocUpsert files lang d

/-- `dc_question_l10n_onaccept` (dc.py lines 558–612): join the
translation row with its question; for Options-type questions with a
matching option count, merge the changed option pairs into the
per-language dictionary file; on a length mismatch report a session
error and write nothing. -/
def dc_question_l10n_onaccept (form : Form) (db : DB) : Except PyErr DB :=
  match form.id with
  | none => .ok db
  | some question_l10n_id =>
    match db.dc_question_l10ns.find? (fun l => l.id = question_l10n_id) with
    | none => .error .typeError
    | some l10n =>
      match db.dc_questions.find? (fun q => q.id = l10n.question_id) with
      | none => .error .typeError
      | some question =>
        if question.field_type ≠ 6 then .ok db
        else
          let options := question.options
          let options_l10n := l10n.options_l10n
          if options.length ≠ options_l10n.length then
            .ok { db with
                    sessionError :=
                      some (.t "Number of Translated Options don't match original!") }
          else
            let translations := readLangFile db.langFiles l10n.language
            let translations := mergeL10n (options.zip options_l10n) translations
            .ok { db with
                    langFiles := writeLangFile db.langFiles l10n.language translations }

/-! ### Helper lemmas -/

theorem updateFieldRow_idem (q : Question) (ft : String) (opts : Option (List TStr))
    (fid : Nat) (f : S3Field) :
    updateFieldRow q ft opts fid (updateFieldRow q ft opts fid f)
      = updateFieldRow q ft opts fid f := by
  unfold updateFieldRow
  by_cases h : f.id = fid
  · simp [h]
  · simp [h]

theorem map_idem {α : Type} (g : α → α) (hg : ∀ a, g (g a) = g a) (l : List α) :
    (l.map g).map g = l.map g := by
  induction l with
  | nil => rfl
  | cons a l ih => simp only [List.map_cons, hg, ih]

theorem assocLookup_cons {β : Type} (p : String × β) (l : List (String × β))
    (k' : String) :
    assocLookup (p :: l) k' = if p.1 = k' then some p.2 else assocLookup l k' := by
  by_cases h : p.1 = k'
  · unfold assocLookup
    rw [List.find?_cons_of_pos _ (by simp [h])]
    simp [h]
  · unfold assocLookup
    rw [List.find?_cons_of_neg _ (by simp [h])]
    simp [h]

theorem assocLookup_upsert {β : Type} (l : List (String × β)) (k : String)
    (v : β) (k' : String) :
    assocLookup (assocUpsert l k v) k'
      = if k' = k then some v else assocLookup l k' := by
  induction l with
  | nil =>
    by_cases h : k' = k
    · subst h; simp [assocUpsert, assocLookup_cons]
    · simp [assocUpsert, assocLookup_cons, assocLookup, h, Ne.symm h]
  | cons p rest ih =>
    by_cases hp : p.1 = k
    · by_cases h : k' = k
      · subst h; simp [assocUpsert, hp, assocLookup_cons]
      · simp [assocUpsert, hp, assocLookup_cons, h, Ne.symm h]
    · by_cases h : k' = k
      · subst h; simp [assocUpsert, hp, assocLookup_cons, ih]
      · simp [assocUpsert, hp, assocLookup_cons, ih, h]

/-- The value the merge loop leaves for key `k`: the translation of the
last pair writing `k`, if any. -/
def lastWrite : List (String × String) → String → Option String
  | [], _ => none
  | w :: rest, k =>
    match lastWrite rest k with
    | some v => some v
    | none => if w.1 = k then some w.2 else none

theorem foldl_upsert_lastWrite (ws : List (String × String)) (d : Dict)
    (k : String) :
    assocLookup (ws.foldl (fun d p => assocUpsert d p.1 p.2) d) k
      = match lastWrite ws k with
        | some v => some v
        | none => assocLookup d k := by
  induction ws generalizing d with
  | nil => rfl
  | cons w ws ih =>
    rw [List.foldl_cons, ih]
    cases hlw : lastWrite ws k with
    | some v => simp [lastWrite, hlw]
    | none =>
      simp only [lastWrite, hlw]
      rw [assocLookup_upsert]
      by_cases h : w.1 = k
      · simp [h]
      · simp [h, Ne.symm h]

/-- The dictionary writes the merge loop performs: the pairs whose
translation differs from the original, stringified, in order. -/
def writesOf (pairs : List (TStr × TStr)) : List (String × String) :=
  (pairs.filter (fun p => s3_str p.1 ≠ s3_str p.2)).map
    (fun p => (s3_str p.1, s3_str p.2))

theorem mergeL10n_eq_foldl (pairs : List (TStr × TStr)) (d : Dict) :
    mergeL10n pairs d
      = (writesOf pairs).foldl (fun d p => assocUpsert d p.1 p.2) d := by
  induction pairs generalizing d with
  | nil => rfl
  | cons p pairs ih =>
    by_cases h : s3_str p.1 = s3_str p.2
    · have hw : writesOf (p :: pairs) = writesOf pairs := by
        simp [writesOf, h]
      rw [hw]
      simp only [mergeL10n, List.foldl_cons]
      rw [if_neg (by simp [h])]
      exact ih d
    · have hw : writesOf (p :: pairs)
          = (s3_str p.1, s3_str p.2) :: writesOf pairs := by
        simp [writesOf, h]
      rw [hw, List.foldl_cons]
      simp only [mergeL10n, List.foldl_cons]
      rw [if_pos h]
      exact ih _

theorem mapFieldType_mapped_of_mem (t : Nat) (opts : List TStr)
    (h : t ∈ ([1, 2, 4, 5, 6, 7, 8] : List Nat)) :
    ∃ fts dopts, mapFieldType t opts = .mapped fts dopts := by
  fin_cases h <;> exact ⟨_, _, rfl⟩

/-! ### Theorems -/

/-- C1: for every question with a non-Grid logical type, the type
dispatch of `dc_question_onaccept` maps Text(1) to `string` with no
options, Number(2) to `integer`, YesNo(4) to `boolean`,
YesNoDontKnow(5) to `string` with the fixed 3-element
Yes/No/Don't-Know list regardless of the question's own options,
Options(6) to `string` with the question's own options preserved,
Date(7) to `date`, and DateTime(8) to `datetime`. -/
theorem typeMapper_follows_table :
    ∀ opts : List TStr,
      mapFieldType 1 opts = .mapped "string" none ∧
      mapFieldType 2 opts = .mapped "integer" none ∧
      mapFieldType 4 opts = .mapped "boolean" none ∧
      mapFieldType 5 opts
        = .mapped "string" (some [.t "Yes", .t "No", .t "Don't Know"]) ∧
      mapFieldType 6 opts = .mapped "string" (some opts) ∧
      mapFieldType 7 opts = .mapped "date" none ∧
      mapFieldType 8 opts = .mapped "datetime" none := by
  intro opts
  exact ⟨rfl, rfl, rfl, rfl, rfl, rfl, rfl⟩

/-- C5: for a question with logical type Grid (9), `dc_question_onaccept`
returns with the state untouched: no dynamic field is created or
updated and the question's field reference is not set. -/
theorem grid_question_noop (form : Form) (db : DB) (qid : Nat) (q : Question)
    (hform : form.id = some qid)
    (hq : db.dc_questions.find? (fun r => r.id = qid) = some q)
    (hgrid : q.field_type = 9) :
    dc_question_onaccept form db = .ok db := by
  simp [dc_question_onaccept, hform, hq, hgrid, mapFieldType]

/-- Witness for `grid_question_noop`. -/
def gridQ : Question :=
  { id := 1, template_id := 1, field_id := none, name := "layout",
    comments := none, field_type := 9, options := [], require_not_empty := false }

/-- Sample database holding a single Grid question. -/
def gridDB : DB :=
  { dc_templates := [], dc_questions := [gridQ], dc_question_l10ns := [],
    s3_tables := [], s3_fields := [], nextTableId := 0, nextFieldId := 0,
    langFiles := [], settings := { mobile_data := false, mobile_inserts := true },
    entropy := [], sessionError := none }

theorem grid_question_noop_witness :
    dc_question_onaccept { id := some 1, name := none } gridDB = .ok gridDB :=
  grid_question_noop { id := some 1, name := none } gridDB 1 gridQ rfl rfl rfl

/-- C2: for a question of a non-Grid logical type whose field
reference is already set, running `dc_question_onaccept` twice with
unchanged data leaves the field count and the question rows (hence the
field reference) unchanged, the second run being a pure overwrite that
fixes the state reached after the first. -/
theorem syncfield_update_idempotent (form : Form) (db : DB) (qid fid : Nat)
    (q : Question)
    (hform : form.id = some qid)
    (hq : db.dc_questions.find? (fun r => r.id = qid) = some q)
    (hfid : q.field_id = some fid)
    (hft : q.field_type ∈ ([1, 2, 4, 5, 6, 7, 8] : List Nat)) :
    ∃ db1 : DB,
      dc_question_onaccept form db = .ok db1 ∧
      dc_question_onaccept form db1 = .ok db1 ∧
      db1.s3_fields.length = db.s3_fields.length ∧
      db1.dc_questions = db.dc_questions := by
  obtain ⟨fts, dopts, hmap⟩ := mapFieldType_mapped_of_mem q.field_type q.options hft
  have hidem := map_idem (updateFieldRow q fts dopts fid)
    (updateFieldRow_idem q fts dopts fid) db.s3_fields
  refine ⟨{ db with s3_fields := db.s3_fields.map (updateFieldRow q fts dopts fid) },
          ?_, ?_, ?_, rfl⟩
  · simp [dc_question_onaccept, hform, hq, hmap, hfid]
  · simp [dc_question_onaccept, hform, hq, hmap, hfid, hidem]
  · simp

/-- Witness question for the idempotence theorem: field already linked. -/
def linkedQ : Question :=
  { id := 1, template_id := 1, field_id := some 5, name := "age",
    comments := none, field_type := 2, options := [], require_not_empty := true }

/-- The dynamic field linked to `linkedQ`. -/
def linkedF : S3Field :=
  { id := 5, table_id := some 3, name := some "f1", label := some "age",
    field_type := "integer", options := none, require_not_empty := true,
    comments := none, component_key := false, component_alias := none,
    component_tab := false, master := none, component_multiple := none }

/-- Sample database for the idempotence theorem. -/
def linkedDB : DB :=
  { dc_templates := [{ id := 1, name := some "t", table_id := some 3 }],
    dc_questions := [linkedQ], dc_question_l10ns := [],
    s3_tables := [{ id := 3, title := some "t", mobile_data := false,
                    settings := .dflt }],
    s3_fields := [linkedF], nextTableId := 4, nextFieldId := 6,
    langFiles := [], settings := { mobile_data := false, mobile_inserts := true },
    entropy := [], sessionError := none }

theorem syncfield_update_idempotent_witness :
    ∃ db1 : DB,
      dc_question_onaccept { id := some 1, name := none } linkedDB = .ok db1 ∧
      dc_question_onaccept { id := some 1, name := none } db1 = .ok db1 ∧
      db1.s3_fields.length = linkedDB.s3_fields.length ∧
      db1.dc_questions = linkedDB.dc_questions :=
  syncfield_update_idempotent { id := some 1, name := none } linkedDB 1 5 linkedQ
    rfl rfl rfl (by decide)

/-- C7: for a question whose logical type code has no entry in the
mapping (none of 1, 2, 4, 5, 6, 7, 8, 9), `dc_question_onaccept`
raises `NotImplementedError`, creating or updating no field. -/
theorem unknown_type_raises (form : Form) (db : DB) (qid : Nat) (q : Question)
    (hform : form.id = some qid)
    (hq : db.dc_questions.find? (fun r => r.id = qid) = some q)
    (hft : q.field_type ∉ ([1, 2, 4, 5, 6, 7, 8, 9] : List Nat)) :
    dc_question_onaccept form db = .error .notImplementedError := by
  simp only [List.mem_cons, List.not_mem_nil, or_false, not_or] at hft
  obtain ⟨h1, h2, h4, h5, h6, h7, h8, h9⟩ := hft
  simp [dc_question_onaccept, hform, hq, mapFieldType,
        h1, h2, h4, h5, h6, h7, h8, h9]

/-- Witness question with the unmapped logical type code 3. -/
def unknownQ : Question :=
  { id := 1, template_id := 1, field_id := none, name := "odd",
    comments := none, field_type := 3, options := [], require_not_empty := false }

/-- Sample database holding a single question of unmapped type. -/
def unknownDB : DB :=
  { dc_templates := [], dc_questions := [unknownQ], dc_question_l10ns := [],
    s3_tables := [], s3_fields := [], nextTableId := 0, nextFieldId := 0,
    langFiles := [], settings := { mobile_data := false, mobile_inserts := true },
    entropy := [], sessionError := none }

theorem unknown_type_raises_witness :
    dc_question_onaccept { id := some 1, name := none } unknownDB
      = .error .notImplementedError :=
  unknown_type_raises { id := some 1, name := none } unknownDB 1 unknownQ
    rfl rfl (by decide)

/-- `find?` over a `map` whose function preserves the predicate. -/
theorem find?_map_of_pred_preserved {α : Type} (p : α → Bool) (u : α → α)
    (hp : ∀ a, p (u a) = p a) (l : List α) (t : α) (h : l.find? p = some t) :
    (l.map u).find? p = some (u t) := by
  induction l with
  | nil => simp at h
  | cons a l ih =>
    by_cases hpa : p a = true
    · rw [List.find?_cons_of_pos _ hpa] at h
      cases h
      rw [List.map_cons, List.find?_cons_of_pos]
      rw [hp]; exact hpa
    · rw [List.find?_cons_of_neg _ (by simp [hpa])] at h
      rw [List.map_cons, List.find?_cons_of_neg]
      · exact ih h
      · simp [hp, hpa]

/-- Fresh template used to exercise `dc_template_create_onaccept`. -/
def provDB : DB :=
  { dc_templates := [{ id := 1, name := some "Survey", table_id := none }],
    dc_questions := [], dc_question_l10ns := [],
    s3_tables := [], s3_fields := [], nextTableId := 0, nextFieldId := 0,
    langFiles := [], settings := { mobile_data := false, mobile_inserts := true },
    entropy := [], sessionError := none }

/-- The accepted creation form for `provDB`'s template. -/
def provForm : Form := { id := some 1, name := some "Survey" }

/-- C6 counterexample: `dc_template_create_onaccept` contains no guard
on an already-set table reference; invoked a second time on the same
template it inserts a second dynamic table and changes the template's
table reference, so the second run is not a no-op. -/
theorem provision_second_run_counterexample :
    (dc_template_create_onaccept provForm
        (dc_template_create_onaccept provForm provDB)).s3_tables.length
      = (dc_template_create_onaccept provForm provDB).s3_tables.length + 1 ∧
    (dc_template_create_onaccept provForm
        (dc_template_create_onaccept provForm provDB)).dc_templates.map
          (fun t => t.table_id)
      ≠ (dc_template_create_onaccept provForm provDB).dc_templates.map
          (fun t => t.table_id) := by
  constructor
  · rfl
  · decide

/-- C6 amended: `dc_template_create_onaccept` has no idempotency guard
of its own; run against a template whose table reference is already
set, it creates one more dynamic table and overwrites the template's
reference with the fresh table id.  A single execution per template is
ensured only by registering the routine as `create_onaccept` (dc.py
lines 92–95), so it fires at template creation only. -/
theorem provision_second_run_overwrites (form : Form) (db : DB)
    (tplid tid : Nat) (t : Template)
    (hform : form.id = some tplid)
    (ht : db.dc_templates.find? (fun r => r.id = tplid) = some t)
    (htid : t.table_id = some tid) :
    (dc_template_create_onaccept form db).s3_tables.length
      = db.s3_tables.length + 1 ∧
    (dc_template_create_onaccept form db).dc_templates.find?
        (fun r => r.id = tplid)
      = some { t with table_id := some db.nextTableId } := by
  constructor
  · simp [dc_template_create_onaccept, hform]
  · simp only [dc_template_create_onaccept, hform]
    have hpt := List.find?_some ht
    have := find?_map_of_pred_preserved
      (fun r : Template => decide (r.id = tplid))
      (fun r : Template =>
        if r.id = tplid then { r with table_id := some db.nextTableId } else r)
      (by
        intro a
        by_cases ha : a.id = tplid
        · simp [ha]
        · simp [ha])
      db.dc_templates t ht
    simp only [decide_eq_true_eq] at hpt
    simpa [hpt] using this

theorem provision_second_run_overwrites_witness :
    (dc_template_create_onaccept provForm
        (dc_template_create_onaccept provForm provDB)).s3_tables.length
      = (dc_template_create_onaccept provForm provDB).s3_tables.length + 1 ∧
    (dc_template_create_onaccept provForm
        (dc_template_create_onaccept provForm provDB)).dc_templates.find?
        (fun r => r.id = 1)
      = some { id := 1, name := some "Survey",
               table_id :=
                 some (dc_template_create_onaccept provForm provDB).nextTableId } :=
  provision_second_run_overwrites provForm
    (dc_template_create_onaccept provForm provDB) 1 0
    { id := 1, name := some "Survey", table_id := some 0 }
    rfl rfl rfl

/-- The characters `str(uuid1())` can produce: lowercase hex digits
and the group separator hyphen. -/
def uuidChars : List Char :=
  "0123456789abcdef-".toList

/-- Valid identifier characters for the dynamic schema store. -/
def validIdentChar (c : Char) : Bool :=
  c.isAlphanum || c = '_'

theorem uuidChar_subst_valid :
    ∀ c ∈ uuidChars, validIdentChar (if c = '-' then '_' else c) = true := by
  decide

/-- C8: a field name generated on first synthesis — the fixed prefix
`f` followed by the raw UUID token with every hyphen replaced by an
underscore — consists solely of letters, digits and underscores. -/
theorem genFieldName_valid_identifier (token : List Char)
    (htoken : ∀ c ∈ token, c ∈ uuidChars) :
    ∀ c ∈ genFieldName token, validIdentChar c = true := by
  intro c hc
  rw [genFieldName, List.mem_cons] at hc
  rcases hc with hc | hc
  · subst hc; decide
  · rw [List.mem_map] at hc
    obtain ⟨d, hd, hdc⟩ := hc
    subst hdc
    exact uuidChar_subst_valid d (htoken d hd)

theorem genFieldName_valid_identifier_witness :
    (∀ c ∈ ("123e4567-e89b-11d3-a456-426614174000".toList), c ∈ uuidChars) ∧
    ∀ c ∈ genFieldName ("123e4567-e89b-11d3-a456-426614174000".toList),
      validIdentChar c = true :=
  ⟨by decide,
   genFieldName_valid_identifier ("123e4567-e89b-11d3-a456-426614174000".toList)
     (by decide)⟩

/-- C3: for an Options-type translation whose option list matches the
canonical list in length, `dc_question_l10n_onaccept` persists a
language dictionary in which every key written by a differing pair
`canonical[i] ≠ translated[i]` holds the (last such) translated value,
every other key keeps its prior value, and dictionaries of other
languages are untouched. -/
theorem l10n_merge_dictionary (form : Form) (db : DB) (lid : Nat)
    (l10n : QuestionL10n) (q : Question)
    (hform : form.id = some lid)
    (hl : db.dc_question_l10ns.find? (fun r => r.id = lid) = some l10n)
    (hq : db.dc_questions.find? (fun r => r.id = l10n.question_id) = some q)
    (hopt : q.field_type = 6)
    (hlen : q.options.length = l10n.options_l10n.length) :
    ∃ db' : DB,
      dc_question_l10n_onaccept form db = .ok db' ∧
      (∀ k, assocLookup (readLangFile db'.langFiles l10n.language) k
          = match lastWrite (writesOf (q.options.zip l10n.options_l10n)) k with
            | some v => some v
            | none => assocLookup (readLangFile db.langFiles l10n.language) k) ∧
      (∀ lang, lang ≠ l10n.language →
          assocLookup db'.langFiles lang = assocLookup db.langFiles lang) := by
  refine ⟨{ db with
              langFiles := writeLangFile db.langFiles l10n.language
                (mergeL10n (q.options.zip l10n.options_l10n)
                  (readLangFile db.langFiles l10n.language)) }, ?_, ?_, ?_⟩
  · simp [dc_question_l10n_onaccept, hform, hl, hq, hopt, hlen]
  · intro k
    show assocLookup (readLangFile (writeLangFile _ _ _) _) k = _
    unfold readLangFile writeLangFile
    rw [assocLookup_upsert, if_pos rfl]
    simp only [Option.getD_some]
    rw [mergeL10n_eq_foldl, foldl_upsert_lastWrite]
  · intro lang hne
    show assocLookup (writeLangFile _ _ _) lang = _
    unfold writeLangFile
    rw [assocLookup_upsert, if_neg hne]

/-- Witness question for the merge theorem (Options type). -/
def optQ : Question :=
  { id := 1, template_id := 1, field_id := some 5, name := "q",
    comments := none, field_type := 6,
    options := [.plain "Yes", .plain "No", .plain "Maybe"],
    require_not_empty := false }

/-- Witness translation row: French options for `optQ`. -/
def optL10n : QuestionL10n :=
  { id := 2, question_id := 1,
    options_l10n := [.plain "Oui", .plain "Non", .plain "Peut-etre"],
    language := "fr" }

/-- Sample database for the translation-merge theorems. -/
def optDB : DB :=
  { dc_templates := [], dc_questions := [optQ], dc_question_l10ns := [optL10n],
    s3_tables := [], s3_fields := [], nextTableId := 0, nextFieldId := 0,
    langFiles := [("fr", [("Hello", "Bonjour")])],
    settings := { mobile_data := false, mobile_inserts := true },
    entropy := [], sessionError := none }

theorem l10n_merge_dictionary_witness :
    ∃ db' : DB,
      dc_question_l10n_onaccept { id := some 2, name := none } optDB = .ok db' ∧
      (∀ k, assocLookup (readLangFile db'.langFiles optL10n.language) k
          = match lastWrite (writesOf (optQ.options.zip optL10n.options_l10n)) k with
            | some v => some v
            | none => assocLookup (readLangFile optDB.langFiles optL10n.language) k) ∧
      (∀ lang, lang ≠ optL10n.language →
          assocLookup db'.langFiles lang = assocLookup optDB.langFiles lang) :=
  l10n_merge_dictionary { id := some 2, name := none } optDB 2 optL10n optQ
    rfl rfl rfl rfl rfl

/-- C4: for an Options-type translation whose option list differs from
the canonical list in length, `dc_question_l10n_onaccept` reports a
validation error on the user session and performs no write: the
language files are exactly as before the call. -/
theorem l10n_length_mismatch_no_write (form : Form) (db : DB) (lid : Nat)
    (l10n : QuestionL10n) (q : Question)
    (hform : form.id = some lid)
    (hl : db.dc_question_l10ns.find? (fun r => r.id = lid) = some l10n)
    (hq : db.dc_questions.find? (fun r => r.id = l10n.question_id) = some q)
    (hopt : q.field_type = 6)
    (hlen : q.options.length ≠ l10n.options_l10n.length) :
    ∃ db' : DB,
      dc_question_l10n_onaccept form db = .ok db' ∧
      db'.langFiles = db.langFiles ∧
      db'.sessionError
        = some (.t "Number of Translated Options don't match original!") := by
  refine ⟨{ db with
              sessionError :=
                some (.t "Number of Translated Options don't match original!") },
          ?_, rfl, rfl⟩
  simp [dc_question_l10n_onaccept, hform, hl, hq, hopt, hlen]

/-- Witness: a 2-element translation against a 3-option question. -/
def shortL10n : QuestionL10n :=
  { id := 3, question_id := 1,
    options_l10n := [.plain "Oui", .plain "Non"],
    language := "fr" }

/-- Sample database for the length-mismatch theorem. -/
def shortDB : DB :=
  { optDB with dc_question_l10ns := [shortL10n] }

theorem l10n_length_mismatch_no_write_witness :
    ∃ db' : DB,
      dc_question_l10n_onaccept { id := some 3, name := none } shortDB = .ok db' ∧
      db'.langFiles = shortDB.langFiles ∧
      db'.sessionError
        = some (.t "Number of Translated Options don't match original!") :=
  l10n_length_mismatch_no_write { id := some 3, name := none } shortDB 3
    shortL10n optQ rfl rfl rfl rfl (by decide)

/-- C9 counterexample: `dc_template_create_onaccept` titles the new
dynamic table from the caller-supplied form value `name` instead of
re-reading the template row, so two runs on the same database state
with the same entity id but different form values perform different
store writes. -/
theorem template_hook_uses_form_name_counterexample :
    (dc_template_create_onaccept { id := some 1, name := some "A" }
        provDB).s3_tables.map (fun t => t.title)
      ≠ (dc_template_create_onaccept { id := some 1, name := some "B" }
          provDB).s3_tables.map (fun t => t.title) := by
  decide

/-- C9 amended: `dc_question_onaccept` and `dc_question_l10n_onaccept`
read nothing from the form beyond the record id, so their effects
depend only on that id and the stored state; `dc_template_create_onaccept`
additionally uses the caller-supplied form value `name` as the new
table's title, and only coincides across runs when that value also
agrees. -/
theorem hooks_depend_only_on_record_id (db : DB) (f1 f2 : Form)
    (hid : f1.id = f2.id) :
    dc_question_onaccept f1 db = dc_question_onaccept f2 db ∧
    dc_question_l10n_onaccept f1 db = dc_question_l10n_onaccept f2 db ∧
    (f1.name = f2.name →
      dc_template_create_onaccept f1 db = dc_template_create_onaccept f2 db) := by
  refine ⟨?_, ?_, ?_⟩
  · unfold dc_question_onaccept; rw [hid]
  · unfold dc_question_l10n_onaccept; rw [hid]
  · intro hname
    unfold dc_template_create_onaccept; rw [hid, hname]

theorem hooks_depend_only_on_record_id_witness :
    dc_question_onaccept { id := some 1, name := some "A" } optDB
        = dc_question_onaccept { id := some 1, name := some "B" } optDB ∧
    dc_question_l10n_onaccept { id := some 1, name := some "A" } optDB
        = dc_question_l10n_onaccept { id := some 1, name := some "B" } optDB ∧
    (({ id := some 1, name := some "A" } : Form).name
          = ({ id := some 1, name := some "B" } : Form).name →
      dc_template_create_onaccept { id := some 1, name := some "A" } optDB
        = dc_template_create_onaccept { id := some 1, name := some "B" } optDB) :=
  hooks_depend_only_on_record_id optDB
    { id := some 1, name := some "A" } { id := some 1, name := some "B" } rfl

/-- C10: when the form carries no record id (accessing `form.vars.id`
raises `AttributeError`), each of the three hooks returns immediately
without touching the state. -/
theorem missing_form_id_noop (form : Form) (db : DB) (h : form.id = none) :
    dc_template_create_onaccept form db = db ∧
    dc_question_onaccept form db = .ok db ∧
    dc_question_l10n_onaccept form db = .ok db := by
  refine ⟨?_, ?_, ?_⟩
  · unfold dc_template_create_onaccept; rw [h]
  · unfold dc_question_onaccept; rw [h]
  · unfold dc_question_l10n_onaccept; rw [h]

theorem missing_form_id_noop_witness :
    dc_template_create_onaccept { id := none, name := some "x" } gridDB = gridDB ∧
    dc_question_onaccept { id := none, name := some "x" } gridDB = .ok gridDB ∧
    dc_question_l10n_onaccept { id := none, name := some "x" } gridDB = .ok gridDB :=
  missing_form_id_noop { id := none, name := some "x" } gridDB rfl

end DC
